import Mathlib

/-
Shallow embedding of src/device-query.py.

Python strings are embedded as `List Char` (`Str`).  Python's negative-index
slicing, `str.find` returning -1, `str.strip`, `str.splitlines`,
`str.split`, `str.lower`, `str.replace(c, "")` and `re.sub(r"\.bin$", "", s)`
are modelled by the `py*` functions below, following CPython semantics for
the inputs the program can produce (ASCII command output).

The netmiko connection is modelled as a `Transport` record giving the
outcome of each transport operation; every function returns the list of
side-effect events (`Ev`) it performed together with an `Except PyErr`
result, so that raised exceptions and issued commands are both observable.
-/

abbrev Str := List Char

/-- first index (0-based) at which `sub` occurs in the string, if any;
the recursion mirrors the left-to-right scan of CPython's `str.find`. -/
def subIdx (sub : Str) : Str → Option Nat
  | [] => if sub.isPrefixOf ([] : Str) then some 0 else none
  | c :: t => if sub.isPrefixOf (c :: t) then some 0 else (subIdx sub t).map (· + 1)

/-- Python `s.find(sub)`: first occurrence index, or -1 when absent. -/
def pyFind (s sub : Str) : Int :=
  match subIdx sub s with
  | some n => (n : Int)
  | none => -1

/-- Python slice-index adjustment for step-1 slices: negative indices count
from the end (clamped at 0), positive ones are clamped at the length. -/
def pyAdjIdx (len : Nat) (i : Int) : Nat :=
  if i < 0 then (max (i + (len : Int)) 0).toNat else min i.toNat len

/-- Python `s[a:b]` (step 1), with CPython's index adjustment. -/
def pySlice (s : Str) (a b : Int) : Str :=
  let a' := pyAdjIdx s.length a
  let b' := pyAdjIdx s.length b
  (s.drop a').take (b' - a')

/-- Python `s[a:]`. -/
def pySliceFrom (s : Str) (a : Int) : Str :=
  pySlice s a (s.length : Int)

/-- Python `s.find(sub, start)`. -/
def pyFindFrom (s sub : Str) (start : Int) : Int :=
  let st := pyAdjIdx s.length start
  match subIdx sub (s.drop st) with
  | some n => ((st + n : Nat) : Int)
  | none => -1

/-- predicate for the whitespace characters removed by Python `str.strip`
(relevant ASCII ones). -/
def isPySpace (c : Char) : Bool :=
  c = ' ' || c = '\t' || c = '\n' || c = '\r' || c = '\x0b' || c = '\x0c'

/-- Python `s.strip()`. -/
def pyStrip (s : Str) : Str :=
  ((s.dropWhile isPySpace).reverse.dropWhile isPySpace).reverse

/-- Python `s.replace(c, "")` for a one-character pattern: delete every
occurrence of `c`. -/
def pyDeleteChar (c : Char) (s : Str) : Str :=
  s.filter (fun x => x != c)

/-- Python `s.lower()` (ASCII case folding suffices for CLI output). -/
def pyLower (s : Str) : Str :=
  s.map Char.toLower

/-- Python `s.startswith(p)`. -/
def pyStartswith (s p : Str) : Bool :=
  p.isPrefixOf s

/-- Python `re.sub(r"\.bin$", "", s)`: an unanchored-at-front, end-anchored
match; `$` also matches just before a final newline (the program only feeds
this pre-stripped text, where the two cases coincide). -/
def reSubBinEnd (s : Str) : Str :=
  if ((".bin").data).isSuffixOf s then s.take (s.length - 4)
  else if ((".bin").data ++ ['\n']).isSuffixOf s then (s.take (s.length - 5)) ++ ['\n']
  else s

/-- helper used by `pySplit`: accumulate the current field (reversed). -/
def pySplitGo (sep : Char) (cur : Str) : Str → List Str
  | [] => [cur.reverse]
  | c :: t => if c = sep then cur.reverse :: pySplitGo sep [] t else pySplitGo sep (c :: cur) t

/-- Python `s.split(sep)` for a one-character separator; always returns a
non-empty list (e.g. `"".split("/") == [""]`). -/
def pySplit (sep : Char) (s : Str) : List Str :=
  pySplitGo sep [] s

/-- helper used by `pySplitlines`: accumulate the current line (reversed);
a trailing line terminator does not produce a final empty line. -/
def pySplitlinesGo (cur : Str) : Str → List Str
  | [] => if cur = [] then [] else [cur.reverse]
  | '\r' :: '\n' :: t => cur.reverse :: pySplitlinesGo [] t
  | '\n' :: t => cur.reverse :: pySplitlinesGo [] t
  | '\r' :: t => cur.reverse :: pySplitlinesGo [] t
  | c :: t => pySplitlinesGo (c :: cur) t

/-- Python `s.splitlines()` (for the `\n`, `\r`, `\r\n` terminators that CLI
output contains). -/
def pySplitlines (s : Str) : List Str :=
  pySplitlinesGo [] s

/-- membership of `sub` in `s` as a substring, i.e. Python `sub in s`;
used to phrase hypotheses the way the specification does. -/
def containsSub (s sub : Str) : Bool :=
  (subIdx sub s).isSome

/-
Data model and effect model.
-/

/-- failure values that can propagate out of the embedded Python functions. -/
inductive PyErr where
  | commandError
  | configError
  | writeError
  | connectionError
  | privilegeError
  /-- evaluating an undefined name raises `NameError`; the module's broken
  handlers (`except Error:` with `Error` unbound) surface as this. -/
  | nameError (missing : Str)
  deriving DecidableEq, Repr

/-- observable side effects, in the order they are performed. -/
inductive Ev where
  | connect
  | enable
  | cmd (c : Str)
  | config (c : Str)
  | sleep (secs : Nat)
  | mkdir (p : Str)
  | write (p : Str)
  | print (line : Str)
  | disconnect
  deriving DecidableEq, Repr

/-- one row of the device CSV file (the fields `connect_to_device` and
`process_target` read). -/
structure DeviceRecord where
  hostname : Str
  ip : Str
  username : Str
  password : Str
  secret : Str
  device_type : Str
  ntp : Str
  deriving DecidableEq, Repr

/-- behaviour of the netmiko transport for one device: the outcome of the
initial `ConnectHandler`, of `enable()`, of `send_command` per command text,
of `send_config_set` per config text, and of writing a file at a path. -/
structure Transport where
  connect : Except PyErr Unit
  enable : Except PyErr Unit
  respond : Str → Except PyErr Str
  confResp : Str → Except PyErr Unit
  writeFile : Str → Str → Except PyErr Unit

/-- filesystem state: the set of directories that exist under the hood of
`os.path.exists` / `os.makedirs`. -/
structure World where
  dirs : List Str
  deriving DecidableEq, Repr

/-- result of running an embedded Python fragment: the events it performed
and either its return value or the exception that escaped it. -/
abbrev PyR (α : Type) : Type := List Ev × Except PyErr α

/-- sequencing of two embedded fragments: on an exception the second never
runs, mirroring Python control flow. -/
def pseq {α β : Type} : PyR α → (α → PyR β) → PyR β
  | (evs, .error e), _ => (evs, .error e)
  | (evs, .ok a), f => ((evs ++ (f a).1 : List Ev), (f a).2)

/-- console notices emitted while loading the device file. -/
inductive Notice where
  | dup (hostname : Str)
  | add (hostname : Str)
  deriving DecidableEq, Repr

/-
Embedded program (src/device-query.py), function by function.
-/

/-- the module constant `BACKUP_DIR_PATH`. -/
def BACKUP_DIR_PATH : Str := ("C:/Temp/_CiscoDevNet/backup").data

/-- model of `os.path.join a b` for a relative second component and posix-style
separators, as used with the configured paths. -/
def osJoin (a b : Str) : Str := a ++ ("/").data ++ b

/-- loop body of `get_devices_from_file`: iterate the CSV rows, scanning the
accepted list for a hostname match; a match prints a duplicate notice (one
per matching accepted record, as the inner `for` does) and sets the `dup`
flag, otherwise the row is appended after an add notice. -/
def devLoop (device_list : List DeviceRecord) (notices : List Notice) :
    List DeviceRecord → List DeviceRecord × List Notice
  | [] => (device_list, notices)
  | row :: rest =>
    let dups := device_list.filter (fun dev => decide (dev.hostname = row.hostname))
    if dups = [] then
      devLoop (device_list ++ [row])
        (notices ++ dups.map (fun _ => Notice.dup row.hostname) ++ [Notice.add row.hostname]) rest
    else
      devLoop device_list (notices ++ dups.map (fun _ => Notice.dup row.hostname)) rest

/-- embedding of `get_devices_from_file`: the `csv.DictReader` is out of scope (spec §1),
so the file is modelled as the list of rows it yields, in file order. -/
def get_devices_from_file (rows : List DeviceRecord) : List DeviceRecord × List Notice :=
  devLoop [] [] rows

/-- embedding of `get_current_date_and_time`: `datetime.datetime.now()` is modelled as an
explicitly passed clock reading, already formatted. -/
def get_current_date_and_time (now : Str) : Str := now

/-- embedding of `connect_to_device`: `ConnectHandler(...)` either yields the live
connection or raises. -/
def connect_to_device (_device : DeviceRecord) (t : Transport) : PyR Transport :=
  ([Ev.connect], t.connect.map (fun _ => t))

/-- embedding of `disconnect_from_device`. -/
def disconnect_from_device (_connection : Transport) (_hostname : Str) : PyR Unit :=
  ([Ev.disconnect], .ok ())

/-- embedding of `get_backup_file_path`: create the per-hostname directory when absent,
then build `<backup-root>/<hostname>/<hostname>-<timestamp>.txt`. -/
def get_backup_file_path (w : World) (hostname timestamp : Str) :
    World × List Ev × Str :=
  let dir := osJoin BACKUP_DIR_PATH hostname
  let backup_file_path :=
    osJoin (osJoin BACKUP_DIR_PATH hostname) (hostname ++ ("-").data ++ timestamp ++ (".txt").data)
  if dir ∈ w.dirs then (w, [], backup_file_path)
  else ({ dirs := w.dirs ++ [dir] }, [Ev.mkdir dir], backup_file_path)

/-- embedding of `create_backup`: send `sh run` and write the output verbatim.  The
`except Error:` handler names the unbound identifier `Error`, so when the
`try` body raises, evaluating the handler raises `NameError` and the
`return False` branch is unreachable. -/
def create_backup (connection : Transport) (backup_file_path : Str) (_hostname : Str) :
    PyR Bool :=
  match connection.respond (("sh run").data) with
  | .error _ => ([Ev.cmd (("sh run").data)], .error (PyErr.nameError (("Error").data)))
  | .ok output =>
    match connection.writeFile backup_file_path output with
    | .error _ =>
      ([Ev.cmd (("sh run").data), Ev.write backup_file_path],
        .error (PyErr.nameError (("Error").data)))
    | .ok _ =>
      ([Ev.cmd (("sh run").data), Ev.write backup_file_path], .ok true)

/-- embedding of `get_device_inv_info`: slice from just after the first `PID:` (or from
index 3 when the marker is absent, since `find` yields -1) up to the first
comma of that tail, and strip.  The `except Error:` handler is the same dead
handler as above. -/
def get_device_inv_info (connection : Transport) : PyR Str :=
  match connection.respond (("sh inv").data) with
  | .error _ => ([Ev.cmd (("sh inv").data)], .error (PyErr.nameError (("Error").data)))
  | .ok output =>
    let o1 := pySliceFrom output (pyFind output (("PID:").data) + 4)
    let o2 := pySlice o1 0 (pyFind o1 ((",").data))
    ([Ev.cmd (("sh inv").data)], .ok (pyStrip o2))

/-- sanitising steps of `get_device_ver_info`: the text after
`System image file is` up to the next newline, stripped, with quotes deleted
and a trailing `.bin` removed. -/
def verSanitized (output : Str) : Str :=
  let idx : Int := pyFind output (("System image file is").data) + (("System image file is").data).length
  reSubBinEnd (pyDeleteChar '"' (pyStrip (pySlice output idx (pyFindFrom output (("\n").data) idx))))

/-- the `output[output.find(":") + 1:]` step of `get_device_ver_info`. -/
def verAfterColon (s : Str) : Str :=
  pySliceFrom s (pyFind s ((":").data) + 1)

/-- the image name derived by `get_device_ver_info`: sanitize, cut at the
colon, split on `/` and keep the last path item (`split` never returns an
empty list, so indexing `len - 1` is the last element). -/
def verImageName (output : Str) : Str :=
  let path_items := pySplit '/' (verAfterColon (verSanitized output))
  path_items.getLastD []

/-- embedding of `get_device_ver_info`: derive the image name and classify NPE via a
case-insensitive `npe` search; `pe_npe` starts as `"PE "` and becomes
`"NPE"` when found.  Same dead `except Error:` handler. -/
def get_device_ver_info (connection : Transport) : PyR Str :=
  match connection.respond (("sh ver").data) with
  | .error _ => ([Ev.cmd (("sh ver").data)], .error (PyErr.nameError (("Error").data)))
  | .ok output =>
    let out := verImageName output
    let pe_npe : Str := if pyFind (pyLower out) (("npe").data) ≠ -1 then ("NPE").data else ("PE ").data
    ([Ev.cmd (("sh ver").data)], .ok (out ++ (" | ").data ++ pe_npe))

/-- the `cdp_run` flag computed by `get_device_cdp_info` from the `sh cdp`
output: ON unless the output contains `CDP is not enabled`. -/
def cdpRunFlag (output : Str) : Str :=
  if pyFind output (("CDP is not enabled").data) < 0 then ("ON").data else ("OFF").data

/-- neighbour counter of `get_device_cdp_info`: slice the `sh cdp nei`
output from the first `Device ID` occurrence (from index -1, i.e. the last
character, when the marker is absent), start the counter at `0 - 1` because
the header line also passes the non-indented test, and add one per line not
starting with a space. -/
def cdpNeighbours (output : Str) : Int :=
  let scanned := pySlice output (pyFind output (("Device ID").data)) (output.length : Int)
  (pySplitlines scanned).foldl
    (fun cdp_neighbours str1 =>
      if !(pyStartswith str1 ((" ").data)) then cdp_neighbours + 1 else cdp_neighbours)
    (0 - 1)

/-- embedding of `get_device_cdp_info`: read the CDP run state, and when ON count the
neighbours; both `try` blocks end in the same dead `except Error:` handler,
so a raised command failure propagates as `NameError` instead of returning
the `DEVICE CDP ... FAILED` sentinels. -/
def get_device_cdp_info (connection : Transport) : PyR Str :=
  match connection.respond (("sh cdp").data) with
  | .error _ => ([Ev.cmd (("sh cdp").data)], .error (PyErr.nameError (("Error").data)))
  | .ok output =>
    let cdp_run := cdpRunFlag output
    if cdp_run = ("ON").data then
      match connection.respond (("sh cdp nei").data) with
      | .error _ =>
        ([Ev.cmd (("sh cdp").data), Ev.cmd (("sh cdp nei").data)],
          .error (PyErr.nameError (("Error").data)))
      | .ok out2 =>
        ([Ev.cmd (("sh cdp").data), Ev.cmd (("sh cdp nei").data)],
          .ok (("CDP is ").data ++ cdp_run ++
            ((", ").data ++ (toString (cdpNeighbours out2)).data ++ (" peers").data)))
    else
      ([Ev.cmd (("sh cdp").data)], .ok (("CDP is ").data ++ cdp_run))

/-- embedding of `getset_device_ntp_info`: ping the NTP server; an output containing
`Success rate is 0` sets the not-reachable prefix and skips configuration,
otherwise `ntp server <server>` is configured; then the sync status is read
and the clock verdict appended.  The whole body sits in one `try` with the
dead `except Error:` handler. -/
def getset_device_ntp_info (connection : Transport) (ntpserver : Str) : PyR Str :=
  let pingCmd := ("ping ").data ++ ntpserver
  match connection.respond pingCmd with
  | .error _ => ([Ev.cmd pingCmd], .error (PyErr.nameError (("Error").data)))
  | .ok output =>
    let branch : PyR Str :=
      if pyFind output (("Success rate is 0").data) ≠ -1 then
        ([], .ok (("NTP server not reachable, ").data))
      else
        match connection.confResp ((("ntp server ").data ++ ntpserver)) with
        | .error _ =>
          ([Ev.config ((("ntp server ").data ++ ntpserver))],
            .error (PyErr.nameError (("Error").data)))
        | .ok _ => ([Ev.config ((("ntp server ").data ++ ntpserver))], .ok [])
    match branch with
    | (evs, .error e) => (Ev.cmd pingCmd :: evs, .error e)
    | (evs, .ok ntp_status) =>
      match connection.respond (("sh ntp status | i Clock is").data) with
      | .error _ =>
        (Ev.cmd pingCmd :: evs ++ [Ev.cmd (("sh ntp status | i Clock is").data)],
          .error (PyErr.nameError (("Error").data)))
      | .ok out2 =>
        (Ev.cmd pingCmd :: evs ++ [Ev.cmd (("sh ntp status | i Clock is").data)],
          .ok (ntp_status ++
            (if pyFind out2 (("Clock is unsynchronized").data) ≠ -1 then
              ("Clock is not sync").data
            else ("Clock is Sync").data)))

/-- embedding of `process_target`: the per-device orchestration.  `connect`, `enable`,
the two terminal-priming commands and any `NameError` escaping the workers
propagate: there is no enclosing handler and no `finally`, so
`disconnect_from_device` runs only when every earlier step returned. -/
def process_target (device : DeviceRecord) (t : Transport) (now : Str) (w : World) :
    World × List Ev × Except PyErr Unit :=
  let timestamp := get_current_date_and_time now
  let pre : PyR Unit :=
    pseq (connect_to_device device t) (fun connection =>
      pseq ([Ev.enable], connection.enable) (fun _ =>
        pseq ([Ev.cmd (("terminal len 0").data)], (connection.respond (("terminal len 0").data)).map (fun _ => ())) (fun _ =>
          pseq ([Ev.sleep 1], .ok ()) (fun _ =>
            pseq ([Ev.cmd (("terminal width 511").data)], (connection.respond (("terminal width 511").data)).map (fun _ => ())) (fun _ =>
              ([Ev.sleep 1], .ok ()))))))
  match pre with
  | (evs, .error e) => (w, evs, .error e)
  | (evs, .ok _) =>
    let wp := get_backup_file_path w device.hostname timestamp
    let backup_file_path := wp.2.2
    let post : PyR Unit :=
      pseq (create_backup t backup_file_path device.hostname) (fun _ =>
        pseq (get_device_inv_info t) (fun device_inv =>
          pseq (get_device_ver_info t) (fun device_ver =>
            pseq (get_device_cdp_info t) (fun device_cdp =>
              pseq (getset_device_ntp_info t device.ntp) (fun device_ntp =>
                pseq ([Ev.print (device.hostname ++ (" | ").data ++ device_inv ++ (" | ").data ++ device_ver ++ (" | ").data ++ device_cdp ++ (" | ").data ++ device_ntp)], .ok ()) (fun _ =>
                  disconnect_from_device t device.hostname))))))
    (wp.1, evs ++ wp.2.1 ++ post.1, post.2)

deriving instance DecidableEq for Except

set_option maxRecDepth 100000

/-
Generic facts about the embedded primitives.
-/

/-- the specification-level reading of "the portion after the first
occurrence of `c`" (the whole string is kept unchanged by the program when
`c` is absent, so this is only meaningful when `c ∈ s`). -/
def afterFirst (c : Char) : Str → Str
  | [] => []
  | x :: t => if x = c then t else afterFirst c t

lemma containsSub_eq_isSome (s sub : Str) : containsSub s sub = (subIdx sub s).isSome := rfl

lemma pyFind_of_subIdx {s sub : Str} {n : Nat} (h : subIdx sub s = some n) :
    pyFind s sub = (n : Int) := by
  unfold pyFind
  rw [h]

lemma pyFind_eq_neg_one_iff {s sub : Str} : pyFind s sub = -1 ↔ containsSub s sub = false := by
  unfold pyFind containsSub
  cases h : subIdx sub s with
  | none => simp
  | some n => simp

lemma pyFind_lt_zero_iff {s sub : Str} : pyFind s sub < 0 ↔ containsSub s sub = false := by
  unfold pyFind containsSub
  cases h : subIdx sub s with
  | none => simp
  | some n => simp [Int.natCast_nonneg, not_lt.mpr (Int.natCast_nonneg n)]

lemma pyFind_ne_neg_one_iff {s sub : Str} : pyFind s sub ≠ -1 ↔ containsSub s sub = true := by
  rw [Ne, pyFind_eq_neg_one_iff]
  simp

lemma subIdx_some_lt {sub : Str} (hs : sub ≠ []) :
    ∀ {s : Str} {n : Nat}, subIdx sub s = some n → n < s.length := by
  intro s
  induction s with
  | nil =>
    intro n h
    rcases sub with _ | ⟨c, t⟩
    · exact absurd rfl hs
    · simp [subIdx, List.isPrefixOf] at h
  | cons x t ih =>
    intro n h
    rw [subIdx] at h
    by_cases hp : sub.isPrefixOf (x :: t) = true
    · rw [if_pos hp] at h
      cases h
      simp
    · rw [if_neg hp] at h
      rcases Option.map_eq_some'.mp h with ⟨m, hm, hmn⟩
      have := ih hm
      simp only [List.length_cons]
      omega

lemma subIdx_single_cons (c x : Char) (t : Str) :
    subIdx [c] (x :: t) = if x = c then some 0 else (subIdx [c] t).map (· + 1) := by
  rw [subIdx]
  by_cases hxc : x = c
  · rw [if_pos hxc, if_pos]
    simp [List.isPrefixOf, hxc]
  · rw [if_neg hxc, if_neg]
    simp [List.isPrefixOf]
    intro h
    exact absurd h.symm hxc

lemma mem_iff_subIdx_single {c : Char} : ∀ {s : Str}, c ∈ s ↔ (subIdx [c] s).isSome := by
  intro s
  induction s with
  | nil => simp [subIdx, List.isPrefixOf]
  | cons x t ih =>
    rw [subIdx_single_cons]
    by_cases hxc : x = c
    · simp [hxc]
    · rw [if_neg hxc]
      simp only [List.mem_cons, Option.isSome_map']
      constructor
      · intro h
        rcases h with h | h
        · exact absurd h.symm hxc
        · exact ih.mp h
      · intro h
        exact Or.inr (ih.mpr h)

lemma subIdx_single_take {c : Char} :
    ∀ {s : Str} {n : Nat}, subIdx [c] s = some n → s.take n = s.takeWhile (fun x => x != c) := by
  intro s
  induction s with
  | nil => intro n h; simp [subIdx, List.isPrefixOf] at h
  | cons x t ih =>
    intro n h
    rw [subIdx_single_cons] at h
    by_cases hxc : x = c
    · rw [if_pos hxc] at h
      cases h
      simp [List.takeWhile_cons, hxc]
    · rw [if_neg hxc] at h
      rcases Option.map_eq_some'.mp h with ⟨m, hm, hmn⟩
      subst hmn
      simp only [List.take_succ_cons, List.takeWhile_cons]
      have hbne : (x != c) = true := by
        simp [bne_iff_ne]
        exact hxc
      rw [hbne]
      simp [ih hm]

lemma subIdx_single_drop {c : Char} :
    ∀ {s : Str} {n : Nat}, subIdx [c] s = some n → s.drop (n + 1) = afterFirst c s := by
  intro s
  induction s with
  | nil => intro n h; simp [subIdx, List.isPrefixOf] at h
  | cons x t ih =>
    intro n h
    rw [subIdx_single_cons] at h
    by_cases hxc : x = c
    · rw [if_pos hxc] at h
      cases h
      simp [afterFirst, hxc]
    · rw [if_neg hxc] at h
      rcases Option.map_eq_some'.mp h with ⟨m, hm, hmn⟩
      subst hmn
      simp only [List.drop_succ_cons]
      rw [afterFirst, if_neg hxc]
      exact ih hm

lemma pySliceFrom_natCast (s : Str) (n : Nat) : pySliceFrom s (n : Int) = s.drop n := by
  unfold pySliceFrom pySlice pyAdjIdx
  have h0 : ¬ ((n : Int) < 0) := by omega
  have h1 : ¬ ((s.length : Int) < 0) := by omega
  rw [if_neg h0, if_neg h1]
  simp only [Int.toNat_natCast, min_self]
  by_cases hn : n ≤ s.length
  · rw [min_eq_left hn]
    have : (s.drop n).length = s.length - n := by simp
    rw [← this, List.take_length]
  · rw [min_eq_right (le_of_not_le hn)]
    rw [List.drop_length]
    rw [List.drop_eq_nil_of_le (le_of_not_le hn)]
    simp

lemma pySlice_zero_nat (s : Str) {j : Nat} (hj : j ≤ s.length) :
    pySlice s 0 (j : Int) = s.take j := by
  unfold pySlice pyAdjIdx
  have h0 : ¬ ((0 : Int) < 0) := by omega
  have h1 : ¬ ((j : Int) < 0) := by omega
  rw [if_neg h0, if_neg h1]
  simp [min_eq_left hj]

lemma pySlice_neg_one_getLast {s : Str} {c : Char} (h : s.getLast? = some c) :
    pySlice s (-1) (s.length : Int) = [c] := by
  have hne : s ≠ [] := by
    intro hnil
    rw [hnil] at h
    simp at h
  have hlen : 1 ≤ s.length := List.length_pos.mpr hne
  unfold pySlice pyAdjIdx
  have hneg : (-1 : Int) < 0 := by omega
  have h1 : ¬ ((s.length : Int) < 0) := by omega
  rw [if_pos hneg, if_neg h1]
  have hmax : (max (-1 + (s.length : Int)) 0).toNat = s.length - 1 := by omega
  rw [hmax]
  simp only [Int.toNat_natCast, min_self]
  have hdrop : ∀ (l : Str), l.getLast? = some c → l.drop (l.length - 1) = [c] := by
    intro l
    induction l with
    | nil => intro hh; simp at hh
    | cons x t iht =>
      intro hh
      cases t with
      | nil =>
        simp at hh
        simp [hh]
      | cons y u =>
        rw [List.getLast?_cons_cons] at hh
        have := iht hh
        simpa using this
  rw [hdrop s h]
  have : s.length - (s.length - 1) = 1 := by omega
  rw [this]
  rfl

lemma foldl_if_count (p : Str → Bool) :
    ∀ (L : List Str) (i : Int),
      L.foldl (fun n l => if p l then n + 1 else n) i = i + ((L.filter p).length : Int) := by
  intro L
  induction L with
  | nil => intro i; simp
  | cons l t ih =>
    intro i
    rw [List.foldl_cons, ih]
    by_cases hp : p l = true
    · rw [if_pos hp, List.filter_cons_of_pos hp]
      simp only [List.length_cons]
      push_cast
      ring
    · rw [if_neg hp, List.filter_cons_of_neg (by simpa using hp)]

/-
Counting helpers over event traces.
-/

/-- recogniser for the disconnect event. -/
def isDisc : Ev → Bool
  | Ev.disconnect => true
  | _ => false

/-- number of disconnect events in a trace. -/
def dCount (l : List Ev) : Nat := (l.filter isDisc).length

/-- recogniser for directory-creation events. -/
def isMkdir : Ev → Bool
  | Ev.mkdir _ => true
  | _ => false

/-- number of directory-creation events in a trace. -/
def mCount (l : List Ev) : Nat := (l.filter isMkdir).length

lemma dCount_append (a b : List Ev) : dCount (a ++ b) = dCount a + dCount b := by
  unfold dCount
  rw [List.filter_append, List.length_append]

lemma dCount_nil : dCount [] = 0 := rfl

lemma dCount_cons (e : Ev) (l : List Ev) :
    dCount (e :: l) = (if isDisc e = true then 1 else 0) + dCount l := by
  unfold dCount
  rw [List.filter_cons]
  by_cases h : isDisc e = true
  · rw [if_pos h, if_pos h, List.length_cons]
    omega
  · rw [if_neg h, if_neg h]
    omega

lemma dCount_backup_path (w : World) (hostname timestamp : Str) :
    dCount (get_backup_file_path w hostname timestamp).2.1 = 0 := by
  unfold get_backup_file_path
  by_cases h : osJoin BACKUP_DIR_PATH hostname ∈ w.dirs
  · rw [if_pos h]
    rfl
  · rw [if_neg h]
    rfl

lemma dCount_create_backup (t : Transport) (p h : Str) :
    dCount (create_backup t p h).1 = 0 := by
  unfold create_backup
  cases t.respond (("sh run").data) with
  | error e => rfl
  | ok o =>
    dsimp only
    cases t.writeFile p o with
    | error e => rfl
    | ok u => rfl

lemma dCount_inv (t : Transport) : dCount (get_device_inv_info t).1 = 0 := by
  unfold get_device_inv_info
  cases t.respond (("sh inv").data) with
  | error e => rfl
  | ok o => rfl

lemma dCount_ver (t : Transport) : dCount (get_device_ver_info t).1 = 0 := by
  unfold get_device_ver_info
  cases t.respond (("sh ver").data) with
  | error e => rfl
  | ok o => rfl

lemma dCount_cdp (t : Transport) : dCount (get_device_cdp_info t).1 = 0 := by
  unfold get_device_cdp_info
  cases t.respond (("sh cdp").data) with
  | error e => rfl
  | ok o =>
    dsimp only
    by_cases hrun : cdpRunFlag o = ("ON").data
    · rw [if_pos hrun]
      cases t.respond (("sh cdp nei").data) with
      | error e => rfl
      | ok o2 => rfl
    · rw [if_neg hrun]
      rfl

lemma dCount_ntp (t : Transport) (srv : Str) : dCount (getset_device_ntp_info t srv).1 = 0 := by
  unfold getset_device_ntp_info
  dsimp only
  cases t.respond ((("ping ").data ++ srv)) with
  | error e => rfl
  | ok o =>
    dsimp only
    by_cases hping : pyFind o (("Success rate is 0").data) ≠ -1
    · rw [if_pos hping]
      cases t.respond (("sh ntp status | i Clock is").data) with
      | error e => rfl
      | ok o2 => rfl
    · rw [if_neg hping]
      cases t.confResp ((("ntp server ").data ++ srv)) with
      | error e => rfl
      | ok u =>
        cases t.respond (("sh ntp status | i Clock is").data) with
        | error e => rfl
        | ok o2 => rfl

/-- Boolean success recogniser for an embedded result. -/
def isOkB {α : Type} : Except PyErr α → Bool
  | .ok _ => true
  | .error _ => false

/-- Claim C2, amended: the session close operation is invoked exactly once
when every step of the device processor returns; on any raising path the
processor aborts without invoking it (zero invocations), because
`process_target` has no `finally` and the dead `except Error:` handlers
re-raise.  Stated as: the number of disconnect events equals 1 on success
and 0 on failure. -/
theorem c2_close_called_iff_success (device : DeviceRecord) (t : Transport) (now : Str) (w : World) :
    dCount (process_target device t now w).2.1 =
      (if isOkB (process_target device t now w).2.2 then 1 else 0) := by
  unfold process_target get_current_date_and_time connect_to_device disconnect_from_device
  dsimp only
  cases hc : t.connect with
  | error e => simp [pseq, Except.map, hc, dCount_append, dCount_cons, dCount_nil, isDisc, isOkB]
  | ok u =>
    cases he : t.enable with
    | error e => simp [pseq, Except.map, hc, he, dCount_append, dCount_cons, dCount_nil, isDisc, isOkB]
    | ok u2 =>
      cases h3 : t.respond (("terminal len 0").data) with
      | error e => simp [pseq, Except.map, hc, he, h3, dCount_append, dCount_cons, dCount_nil, isDisc, isOkB]
      | ok o3 =>
        cases h4 : t.respond (("terminal width 511").data) with
        | error e => simp [pseq, Except.map, hc, he, h3, h4, dCount_append, dCount_cons, dCount_nil, isDisc, isOkB]
        | ok o4 =>
          simp only [pseq, Except.map, hc, he, h3, h4]
          rcases hcb : create_backup t (get_backup_file_path w device.hostname now).2.2 device.hostname with ⟨e5, r5⟩
          have hd5 : dCount e5 = 0 := by
            have := dCount_create_backup t (get_backup_file_path w device.hostname now).2.2 device.hostname
            rw [hcb] at this
            exact this
          have hdB := dCount_backup_path w device.hostname now
          cases r5 with
          | error e => simp [pseq, hcb, dCount_append, hdB, hd5, dCount_append, dCount_cons, dCount_nil, isDisc, isOkB]
          | ok v5 =>
            rcases hiv : get_device_inv_info t with ⟨e6, r6⟩
            have hd6 : dCount e6 = 0 := by
              have := dCount_inv t
              rw [hiv] at this
              exact this
            cases r6 with
            | error e => simp [pseq, hcb, hiv, dCount_append, hdB, hd5, hd6, dCount_append, dCount_cons, dCount_nil, isDisc, isOkB]
            | ok v6 =>
              rcases hvr : get_device_ver_info t with ⟨e7, r7⟩
              have hd7 : dCount e7 = 0 := by
                have := dCount_ver t
                rw [hvr] at this
                exact this
              cases r7 with
              | error e => simp [pseq, hcb, hiv, hvr, dCount_append, hdB, hd5, hd6, hd7, dCount_append, dCount_cons, dCount_nil, isDisc, isOkB]
              | ok v7 =>
                rcases hcd : get_device_cdp_info t with ⟨e8, r8⟩
                have hd8 : dCount e8 = 0 := by
                  have := dCount_cdp t
                  rw [hcd] at this
                  exact this
                cases r8 with
                | error e => simp [pseq, hcb, hiv, hvr, hcd, dCount_append, hdB, hd5, hd6, hd7, hd8, dCount_append, dCount_cons, dCount_nil, isDisc, isOkB]
                | ok v8 =>
                  rcases hnt : getset_device_ntp_info t device.ntp with ⟨e9, r9⟩
                  have hd9 : dCount e9 = 0 := by
                    have := dCount_ntp t device.ntp
                    rw [hnt] at this
                    exact this
                  cases r9 with
                  | error e => simp [pseq, hcb, hiv, hvr, hcd, hnt, dCount_append, hdB, hd5, hd6, hd7, hd8, hd9, dCount_append, dCount_cons, dCount_nil, isDisc, isOkB]
                  | ok v9 => simp [pseq, hcb, hiv, hvr, hcd, hnt, dCount_append, hdB, hd5, hd6, hd7, hd8, hd9, dCount_append, dCount_cons, dCount_nil, isDisc, isOkB]

/-- transport whose privilege elevation (`enable()`) raises; everything else
would succeed. -/
def tEnableFail : Transport :=
  { connect := .ok (), enable := .error PyErr.privilegeError,
    respond := fun _ => .ok ((" ").data), confResp := fun _ => .ok (),
    writeFile := fun _ _ => .ok () }

/-- device record used by the C2 counterexample run. -/
def devC2 : DeviceRecord :=
  { hostname := ("R9").data, ip := ("10.0.0.2").data, username := ("u").data,
    password := ("p").data, secret := ("s").data, device_type := ("cisco_ios").data,
    ntp := ("10.0.0.9").data }

/-- Claim C2, counterexample: on a device whose privilege elevation raises,
processing ends with the exception and the close operation is invoked zero
times, not exactly once. -/
theorem c2_close_not_called_on_enable_failure :
    dCount (process_target devC2 tEnableFail (("2024_01_01-00_00_00").data) ⟨[]⟩).2.1 = 0
    ∧ (process_target devC2 tEnableFail (("2024_01_01-00_00_00").data) ⟨[]⟩).2.2
        = .error PyErr.privilegeError
    ∧ (process_target devC2 tEnableFail (("2024_01_01-00_00_00").data) ⟨[]⟩).2.1
        = [Ev.connect, Ev.enable] := by
  decide

/-- transport for which only `sh ver` raises (for instance the session drops
while that command is out); all other operations succeed. -/
def tVerFail : Transport :=
  { connect := .ok (), enable := .ok (),
    respond := fun c => if c = ("sh ver").data then .error PyErr.commandError else .ok ((" ").data),
    confResp := fun _ => .ok (), writeFile := fun _ _ => .ok () }

/-- device record used by the C1 failing run. -/
def devC1 : DeviceRecord :=
  { hostname := ("R1").data, ip := ("10.0.0.1").data, username := ("u").data,
    password := ("p").data, secret := ("s").data, device_type := ("cisco_ios").data,
    ntp := ("10.0.0.9").data }

/-- Claim C1 is the intended behaviour but the code does not implement it:
the `except Error:` clauses name the unbound identifier `Error`, so when the
version command raises, the extractor does not return the
`DEVICE VERSION FAILED` sentinel — a `NameError` escapes, `process_target`
aborts before the CDP and NTP extractors, no report line is printed and the
session is never disconnected. -/
theorem c1_extractors_do_not_catch :
    (get_device_ver_info tVerFail).2 = .error (PyErr.nameError (("Error").data))
    ∧ (get_device_ver_info tVerFail).2 ≠ .ok (("DEVICE VERSION FAILED").data)
    ∧ (process_target devC1 tVerFail (("2024_01_01-00_00_00").data) ⟨[]⟩).2.1
        = [Ev.connect, Ev.enable, Ev.cmd (("terminal len 0").data), Ev.sleep 1,
           Ev.cmd (("terminal width 511").data), Ev.sleep 1,
           Ev.mkdir (("C:/Temp/_CiscoDevNet/backup/R1").data),
           Ev.cmd (("sh run").data),
           Ev.write (("C:/Temp/_CiscoDevNet/backup/R1/R1-2024_01_01-00_00_00.txt").data),
           Ev.cmd (("sh inv").data), Ev.cmd (("sh ver").data)]
    ∧ (process_target devC1 tVerFail (("2024_01_01-00_00_00").data) ⟨[]⟩).2.2
        = .error (PyErr.nameError (("Error").data)) := by
  decide

/-- the specification's reading for C3: the portion after the last colon. -/
def specAfterLastColon (s : Str) : Str :=
  (s.reverse.takeWhile (fun x => x != ':')).reverse

/-- transport whose `sh ver` output is the two-colon image line used to
separate "first colon" from "last colon". -/
def tC3 : Transport :=
  { connect := .ok (), enable := .ok (),
    respond := fun c => if c = ("sh ver").data then .ok (("System image file is \"a:b:c.bin\"").data) else .ok [],
    confResp := fun _ => .ok (), writeFile := fun _ _ => .ok () }

/-- Claim C3, counterexample: on a sanitized image string `a:b:c` (which
contains colons), the extractor keeps `b:c` — the portion after the FIRST
colon — while the portion after the last colon would be `c`; the full
extractor returns `b:c | PE `. -/
theorem c3_first_colon_not_last :
    verSanitized (("System image file is \"a:b:c.bin\"").data) = ("a:b:c").data
    ∧ (':' ∈ verSanitized (("System image file is \"a:b:c.bin\"").data))
    ∧ (get_device_ver_info tC3).2 = .ok (("b:c | PE ").data)
    ∧ specAfterLastColon (("a:b:c").data) = ("c").data
    ∧ verAfterColon (("a:b:c").data) ≠ specAfterLastColon (("a:b:c").data) := by
  decide

/-- Claim C3, amended: when the sanitized text contains one or more colons,
the version extractor's colon step keeps exactly the portion after the
FIRST such colon. -/
theorem c3_after_first_colon (s : Str) (h : ':' ∈ s) :
    verAfterColon s = afterFirst ':' s := by
  obtain ⟨n, hn⟩ := Option.isSome_iff_exists.mp (mem_iff_subIdx_single.mp h)
  have hcol : ((":").data) = [':'] := rfl
  have hfind : pyFind s ((":").data) = (n : Int) := by
    rw [hcol]
    exact pyFind_of_subIdx hn
  unfold verAfterColon
  rw [hfind]
  have hcast : ((n : Int) + 1) = ((n + 1 : Nat) : Int) := by push_cast; ring
  rw [hcast, pySliceFrom_natCast]
  exact subIdx_single_drop hn

theorem c3_after_first_colon_witness :
    (':' ∈ (("a:b").data))
    ∧ verAfterColon (("a:b").data) = afterFirst ':' (("a:b").data)
    ∧ afterFirst ':' (("a:b").data) = ("b").data :=
  ⟨by decide, c3_after_first_colon (("a:b").data) (by decide), by decide⟩

/-- the specification's worked version-parsing input for C7. -/
def c7input : Str :=
  ("System image file is \"flash:cat3k_caa-universalk9.SPA.16.06.04.bin\"").data

/-- Claim C7: on the worked example the extractor yields
`cat3k_caa-universalk9.SPA.16.06.04 | PE `, and whenever the derived image
name contains `npe` case-insensitively, the suffix is `NPE`. -/
theorem c7_version_example_and_npe (t : Transport) (output : Str)
    (h : t.respond (("sh ver").data) = .ok output) :
    (output = c7input →
      (get_device_ver_info t).2 = .ok (("cat3k_caa-universalk9.SPA.16.06.04 | PE ").data))
    ∧ (containsSub (pyLower (verImageName output)) (("npe").data) = true →
        (get_device_ver_info t).2 = .ok (verImageName output ++ (" | ").data ++ ("NPE").data)) := by
  unfold get_device_ver_info
  rw [h]
  dsimp only
  constructor
  · intro he
    subst he
    decide
  · intro hnpe
    have hne : pyFind (pyLower (verImageName output)) (("npe").data) ≠ -1 :=
      pyFind_ne_neg_one_iff.mpr hnpe
    rw [if_pos hne]

/-- transport answering `sh ver` with the C7 worked example. -/
def tC7a : Transport :=
  { connect := .ok (), enable := .ok (),
    respond := fun c => if c = ("sh ver").data then .ok c7input else .ok [],
    confResp := fun _ => .ok (), writeFile := fun _ _ => .ok () }

/-- an NPE image line (directory path and trailing newline included). -/
def npeInput : Str :=
  ("System image file is \"bootflash:/dir/c2900-universalk9_npe-mz.SPA.bin\"\n").data

/-- transport answering `sh ver` with the NPE image line. -/
def tC7b : Transport :=
  { connect := .ok (), enable := .ok (),
    respond := fun c => if c = ("sh ver").data then .ok npeInput else .ok [],
    confResp := fun _ => .ok (), writeFile := fun _ _ => .ok () }

theorem c7_version_npe_witness :
    (get_device_ver_info tC7a).2 = .ok (("cat3k_caa-universalk9.SPA.16.06.04 | PE ").data)
    ∧ (get_device_ver_info tC7b).2 = .ok (("c2900-universalk9_npe-mz.SPA | NPE").data) := by
  constructor
  · exact (c7_version_example_and_npe tC7a c7input (by decide)).1 rfl
  · have hw := (c7_version_example_and_npe tC7b npeInput (by decide)).2 (by decide)
    rw [hw]
    decide

/-- Claim C9: when the `sh inv` output lacks the `PID:` marker (and has a
comma after index 3), the inventory extractor neither raises nor returns its
sentinel: `find` yields -1, so it returns the stripped text from character
index 3 up to the first comma of that tail. -/
theorem c9_inventory_no_pid (t : Transport) (output : Str)
    (h : t.respond (("sh inv").data) = .ok output)
    (hpid : containsSub output (("PID:").data) = false)
    (hcomma : ',' ∈ output.drop 3) :
    (get_device_inv_info t).2
      = .ok (pyStrip ((output.drop 3).takeWhile (fun x => x != ','))) := by
  unfold get_device_inv_info
  rw [h]
  dsimp only
  have hfind : pyFind output (("PID:").data) = -1 := pyFind_eq_neg_one_iff.mpr hpid
  rw [hfind]
  have h3 : (-1 + 4 : Int) = ((3 : Nat) : Int) := by norm_num
  rw [h3, pySliceFrom_natCast]
  obtain ⟨j, hj⟩ := Option.isSome_iff_exists.mp (mem_iff_subIdx_single.mp hcomma)
  have hfind2 : pyFind (output.drop 3) (((",").data)) = (j : Int) := by
    have hcm : (((",").data)) = [','] := rfl
    rw [hcm]
    exact pyFind_of_subIdx hj
  rw [hfind2]
  have hjlt : j < (output.drop 3).length := subIdx_some_lt (by decide) hj
  rw [pySlice_zero_nat _ (le_of_lt hjlt)]
  rw [subIdx_single_take hj]

/-- transport whose `sh inv` output has no `PID:` marker at all. -/
def tC9 : Transport :=
  { connect := .ok (), enable := .ok (),
    respond := fun c => if c = ("sh inv").data then .ok (("hello there, friend").data) else .ok [],
    confResp := fun _ => .ok (), writeFile := fun _ _ => .ok () }

theorem c9_inventory_no_pid_witness :
    (get_device_inv_info tC9).2
      = .ok (pyStrip ((((("hello there, friend").data)).drop 3).takeWhile (fun x => x != ',')))
    ∧ pyStrip ((((("hello there, friend").data)).drop 3).takeWhile (fun x => x != ','))
      = ("lo there").data :=
  ⟨c9_inventory_no_pid tC9 (("hello there, friend").data) (by decide) (by decide) (by decide),
   by decide⟩

/-- Claim C10: with CDP considered running, a `sh cdp nei` output that lacks
the `Device ID` marker is sliced from index -1, so only its final character
is scanned; when that character is a space the counter stays at -1 and the
extractor reports `CDP is ON, -1 peers`. -/
theorem c10_cdp_negative (t : Transport) (o1 o2 : Str)
    (h1 : t.respond (("sh cdp").data) = .ok o1)
    (h2 : t.respond (("sh cdp nei").data) = .ok o2)
    (hoff : containsSub o1 (("CDP is not enabled").data) = false)
    (hhdr : containsSub o2 (("Device ID").data) = false)
    (hlast : o2.getLast? = some ' ') :
    (get_device_cdp_info t).2 = .ok (("CDP is ON, -1 peers").data) := by
  have hflag : cdpRunFlag o1 = ("ON").data := by
    unfold cdpRunFlag
    rw [if_pos (pyFind_lt_zero_iff.mpr hoff)]
  have hcount : cdpNeighbours o2 = -1 := by
    unfold cdpNeighbours
    rw [pyFind_eq_neg_one_iff.mpr hhdr]
    rw [pySlice_neg_one_getLast hlast]
    decide
  unfold get_device_cdp_info
  rw [h1]
  dsimp only
  rw [hflag, if_pos rfl, h2]
  dsimp only
  rw [hcount]
  decide

/-- transport whose `sh cdp nei` answer lacks the header and ends in a
space. -/
def tC10 : Transport :=
  { connect := .ok (), enable := .ok (),
    respond := fun c =>
      if c = ("sh cdp").data then .ok (("x").data)
      else if c = ("sh cdp nei").data then .ok (("foo ").data)
      else .ok [],
    confResp := fun _ => .ok (), writeFile := fun _ _ => .ok () }

theorem c10_cdp_negative_witness :
    (get_device_cdp_info tC10).2 = .ok (("CDP is ON, -1 peers").data) :=
  c10_cdp_negative tC10 (("x").data) (("foo ").data)
    (by decide) (by decide) (by decide) (by decide) (by decide)

/-- specification-level peer count: the number of non-indented lines of the
neighbour output taken from the `Device ID` header onward, minus one for the
header line itself. -/
def specCdpPeerCount (o : Str) : Int :=
  (((pySplitlines (o.drop ((subIdx (("Device ID").data) o).getD 0))).filter
      (fun l => !(pyStartswith l ((" ").data)))).length : Int) - 1

/-- Claim C5: an `sh cdp` output containing `CDP is not enabled` yields
`CDP is OFF` with no neighbour query; otherwise, when the header is present,
the result is `CDP is ON, <N> peers` where `N` counts the non-indented lines
from the header onward, starting at -1 so the header is not counted. -/
theorem c5_cdp_off_and_count (t : Transport) (o1 o2 : Str)
    (h1 : t.respond (("sh cdp").data) = .ok o1)
    (h2 : t.respond (("sh cdp nei").data) = .ok o2) :
    (containsSub o1 (("CDP is not enabled").data) = true →
      get_device_cdp_info t = ([Ev.cmd (("sh cdp").data)], .ok (("CDP is OFF").data)))
    ∧ (containsSub o1 (("CDP is not enabled").data) = false →
       containsSub o2 (("Device ID").data) = true →
        (get_device_cdp_info t).2
          = .ok ((("CDP is ON, ").data) ++ (toString (specCdpPeerCount o2)).data ++ ((" peers").data))) := by
  constructor
  · intro hoff
    have hflag : cdpRunFlag o1 = ("OFF").data := by
      unfold cdpRunFlag
      rw [if_neg]
      rw [pyFind_lt_zero_iff]
      simp [hoff]
    unfold get_device_cdp_info
    rw [h1]
    dsimp only
    rw [hflag, if_neg (by decide)]
    decide
  · intro hon hhdr
    have hflag : cdpRunFlag o1 = ("ON").data := by
      unfold cdpRunFlag
      rw [if_pos (pyFind_lt_zero_iff.mpr hon)]
    obtain ⟨n, hn⟩ := Option.isSome_iff_exists.mp hhdr
    have hcount : cdpNeighbours o2 = specCdpPeerCount o2 := by
      unfold cdpNeighbours specCdpPeerCount
      rw [pyFind_of_subIdx hn, hn]
      have hslice : pySlice o2 ((n : Nat) : Int) ((o2.length : Nat) : Int) = o2.drop n := by
        have hfold : pySlice o2 ((n : Nat) : Int) ((o2.length : Nat) : Int) = pySliceFrom o2 ((n : Nat) : Int) := rfl
        rw [hfold, pySliceFrom_natCast]
      rw [hslice]
      dsimp only [Option.getD_some]
      rw [foldl_if_count]
      omega
    unfold get_device_cdp_info
    rw [h1]
    dsimp only
    rw [hflag, if_pos rfl, h2]
    dsimp only
    rw [hcount]
    simp

/-- transport answering with CDP disabled. -/
def tC5off : Transport :=
  { connect := .ok (), enable := .ok (),
    respond := fun c =>
      if c = ("sh cdp").data then .ok (("% CDP is not enabled").data)
      else if c = ("sh cdp nei").data then .ok (("irrelevant").data)
      else .ok [],
    confResp := fun _ => .ok (), writeFile := fun _ _ => .ok () }

/-- the specification's worked neighbour listing: one header line, three
non-indented neighbour lines, two indented continuation lines. -/
def cdpNeiExample : Str :=
  ("Capability Codes: R - Router\n\nDevice ID        Local Intrfce     Holdtme    Capability  Platform  Port ID\nR2.example.com\n                 Gig 0/1          120         R S I      CSR1000V  Gig 0/2\nR3\n                 Gig 0/2          155         R S I      CSR1000V  Gig 0/3\nSW1              Fas 0/1          150         S           WS-C2960  Fas 0/10\n").data

/-- transport answering with CDP enabled and the worked neighbour listing. -/
def tC5on : Transport :=
  { connect := .ok (), enable := .ok (),
    respond := fun c =>
      if c = ("sh cdp").data then .ok (("Global CDP information:").data)
      else if c = ("sh cdp nei").data then .ok cdpNeiExample
      else .ok [],
    confResp := fun _ => .ok (), writeFile := fun _ _ => .ok () }

theorem c5_cdp_witness :
    get_device_cdp_info tC5off = ([Ev.cmd (("sh cdp").data)], .ok (("CDP is OFF").data))
    ∧ (get_device_cdp_info tC5on).2 = .ok (("CDP is ON, 3 peers").data) := by
  constructor
  · exact (c5_cdp_off_and_count tC5off (("% CDP is not enabled").data) (("irrelevant").data)
      (by decide) (by decide)).1 (by decide)
  · have hw := (c5_cdp_off_and_count tC5on (("Global CDP information:").data) cdpNeiExample
      (by decide) (by decide)).2 (by decide) (by decide)
    rw [hw]
    decide

/-- the clock verdict appended by the NTP extractor, phrased with substring
membership as the specification does. -/
def clockVerdict (s : Str) : Str :=
  if containsSub s (("Clock is unsynchronized").data) = true then ("Clock is not sync").data
  else ("Clock is Sync").data

lemma clock_if_eq (s : Str) :
    (if pyFind s (("Clock is unsynchronized").data) ≠ -1 then ("Clock is not sync").data
      else ("Clock is Sync").data) = clockVerdict s := by
  unfold clockVerdict
  by_cases h : containsSub s (("Clock is unsynchronized").data) = true
  · rw [if_pos (pyFind_ne_neg_one_iff.mpr h), if_pos h]
  · have hf : pyFind s (("Clock is unsynchronized").data) = -1 :=
      pyFind_eq_neg_one_iff.mpr (by simpa using h)
    rw [if_neg (fun hh => hh hf), if_neg h]

/-- Claim C6: a ping reporting `Success rate is 0` prefixes the result with
`NTP server not reachable, ` and issues no configuration command; otherwise
the `ntp server` configuration command is issued exactly once, before the
sync-status query; in both cases the result ends with `Clock is not sync`
when the status output contains `Clock is unsynchronized` and with
`Clock is Sync` otherwise. -/
theorem c6_ntp (t : Transport) (pingOut statusOut ntpserver : Str)
    (hp : t.respond ((("ping ").data ++ ntpserver)) = .ok pingOut)
    (hs : t.respond (("sh ntp status | i Clock is").data) = .ok statusOut)
    (hc : t.confResp ((("ntp server ").data ++ ntpserver)) = .ok ()) :
    (containsSub pingOut (("Success rate is 0").data) = true →
      getset_device_ntp_info t ntpserver =
        ([Ev.cmd ((("ping ").data ++ ntpserver)), Ev.cmd (("sh ntp status | i Clock is").data)],
          .ok ((("NTP server not reachable, ").data) ++ clockVerdict statusOut)))
    ∧ (containsSub pingOut (("Success rate is 0").data) = false →
        getset_device_ntp_info t ntpserver =
          ([Ev.cmd ((("ping ").data ++ ntpserver)),
            Ev.config ((("ntp server ").data ++ ntpserver)),
            Ev.cmd (("sh ntp status | i Clock is").data)],
            .ok (clockVerdict statusOut))) := by
  constructor
  · intro hsr
    unfold getset_device_ntp_info
    dsimp only
    rw [hp]
    dsimp only
    rw [if_pos (pyFind_ne_neg_one_iff.mpr hsr)]
    dsimp only
    rw [hs]
    dsimp only
    rw [clock_if_eq]
    simp
  · intro hsr
    unfold getset_device_ntp_info
    dsimp only
    rw [hp]
    dsimp only
    rw [if_neg (fun hh => hh (pyFind_eq_neg_one_iff.mpr hsr))]
    rw [hc]
    dsimp only
    rw [hs]
    dsimp only
    rw [clock_if_eq]
    simp

/-- transport whose ping reports a zero success rate and whose clock is not
synchronized. -/
def tC6a : Transport :=
  { connect := .ok (), enable := .ok (),
    respond := fun c =>
      if c = ("ping 1.2.3.4").data then .ok (("Success rate is 0 percent (0/5)").data)
      else if c = ("sh ntp status | i Clock is").data then .ok (("Clock is unsynchronized, stratum 16").data)
      else .ok [],
    confResp := fun _ => .ok (), writeFile := fun _ _ => .ok () }

/-- transport whose ping succeeds and whose clock is synchronized. -/
def tC6b : Transport :=
  { connect := .ok (), enable := .ok (),
    respond := fun c =>
      if c = ("ping 1.2.3.4").data then .ok (("Success rate is 100 percent (5/5)").data)
      else if c = ("sh ntp status | i Clock is").data then .ok (("Clock is synchronized, stratum 2").data)
      else .ok [],
    confResp := fun _ => .ok (), writeFile := fun _ _ => .ok () }

theorem c6_ntp_witness :
    getset_device_ntp_info tC6a (("1.2.3.4").data) =
      ([Ev.cmd (("ping 1.2.3.4").data), Ev.cmd (("sh ntp status | i Clock is").data)],
        .ok (("NTP server not reachable, Clock is not sync").data))
    ∧ getset_device_ntp_info tC6b (("1.2.3.4").data) =
        ([Ev.cmd (("ping 1.2.3.4").data), Ev.config (("ntp server 1.2.3.4").data),
          Ev.cmd (("sh ntp status | i Clock is").data)],
          .ok (("Clock is Sync").data)) := by
  constructor
  · have hw := (c6_ntp tC6a (("Success rate is 0 percent (0/5)").data)
      (("Clock is unsynchronized, stratum 16").data) (("1.2.3.4").data)
      (by decide) (by decide) (by decide)).1 (by decide)
    rw [hw]
    decide
  · have hw := (c6_ntp tC6b (("Success rate is 100 percent (5/5)").data)
      (("Clock is synchronized, stratum 2").data) (("1.2.3.4").data)
      (by decide) (by decide) (by decide)).2 (by decide)
    rw [hw]
    decide

/-- Claim C8: the backup file path is
`<backup-root>/<hostname>/<hostname>-<timestamp>.txt`, and computing the path
twice for the same hostname creates the per-hostname directory exactly once
when it did not already exist. -/
theorem c8_backup_path (w : World) (hostname t1 t2 : Str)
    (h : osJoin BACKUP_DIR_PATH hostname ∉ w.dirs) :
    (get_backup_file_path w hostname t1).2.2
        = BACKUP_DIR_PATH ++ ("/").data ++ hostname ++ ("/").data ++ hostname
            ++ ("-").data ++ t1 ++ (".txt").data
    ∧ (get_backup_file_path (get_backup_file_path w hostname t1).1 hostname t2).2.2
        = BACKUP_DIR_PATH ++ ("/").data ++ hostname ++ ("/").data ++ hostname
            ++ ("-").data ++ t2 ++ (".txt").data
    ∧ mCount ((get_backup_file_path w hostname t1).2.1
        ++ (get_backup_file_path (get_backup_file_path w hostname t1).1 hostname t2).2.1) = 1 := by
  unfold get_backup_file_path
  rw [if_neg h]
  dsimp only
  have hmem : osJoin BACKUP_DIR_PATH hostname ∈ w.dirs ++ [osJoin BACKUP_DIR_PATH hostname] := by
    simp
  rw [if_pos hmem]
  refine ⟨?_, ?_, ?_⟩
  · unfold osJoin
    simp [List.append_assoc]
  · unfold osJoin
    simp [List.append_assoc]
  · simp [mCount, isMkdir]

theorem c8_backup_path_witness :
    (osJoin BACKUP_DIR_PATH (("R1").data) ∉ (World.mk []).dirs)
    ∧ (get_backup_file_path ⟨[]⟩ (("R1").data) (("2024_01_01-00_00_00").data)).2.2
        = ("C:/Temp/_CiscoDevNet/backup/R1/R1-2024_01_01-00_00_00.txt").data
    ∧ mCount ((get_backup_file_path ⟨[]⟩ (("R1").data) (("2024_01_01-00_00_00").data)).2.1
        ++ (get_backup_file_path
              (get_backup_file_path ⟨[]⟩ (("R1").data) (("2024_01_01-00_00_00").data)).1
              (("R1").data) (("2024_01_01-00_00_00").data)).2.1) = 1 := by
  refine ⟨by decide, ?_, ?_⟩
  · rw [(c8_backup_path ⟨[]⟩ (("R1").data) (("2024_01_01-00_00_00").data)
      (("2024_01_01-00_00_00").data) (by decide)).1]
    decide
  · exact (c8_backup_path ⟨[]⟩ (("R1").data) (("2024_01_01-00_00_00").data)
      (("2024_01_01-00_00_00").data) (by decide)).2.2

/-- specification-level registry (§4.1): iterate records in source order,
skip a record whose hostname is already accepted, append otherwise; result
ordering equals first-seen order. -/
def specRegistry (accepted : List DeviceRecord) : List DeviceRecord → List DeviceRecord
  | [] => []
  | row :: rest =>
    if accepted.any (fun dev => decide (dev.hostname = row.hostname)) then
      specRegistry accepted rest
    else row :: specRegistry (accepted ++ [row]) rest

lemma filter_nil_iff_any_false (l : List DeviceRecord) (hn : Str) :
    l.filter (fun dev => decide (dev.hostname = hn)) = []
      ↔ l.any (fun dev => decide (dev.hostname = hn)) = false := by
  rw [List.filter_eq_nil_iff, List.any_eq_false]

lemma filter_map_const_dup (hn : Str) (l : List DeviceRecord) :
    List.filter (fun x => decide (x = Notice.dup hn)) (List.map (fun _ => Notice.dup hn) l)
      = List.map (fun _ => Notice.dup hn) l := by
  induction l with
  | nil => rfl
  | cons a t ih => simp [List.filter_cons, ih]

lemma filter_map_const_dup_ne {hn hx : Str} (hne : hx ≠ hn) (l : List DeviceRecord) :
    List.filter (fun x => decide (x = Notice.dup hn)) (List.map (fun _ => Notice.dup hx) l)
      = [] := by
  induction l with
  | nil => rfl
  | cons a t ih => simp [List.filter_cons, ih, hne]

lemma devLoop_spec :
    ∀ (rows acc : List DeviceRecord) (ns : List Notice),
      (devLoop acc ns rows).1 = acc ++ specRegistry acc rows := by
  intro rows
  induction rows with
  | nil =>
    intro acc ns
    simp [devLoop, specRegistry]
  | cons row rest ih =>
    intro acc ns
    rw [devLoop, specRegistry]
    by_cases hd : acc.filter (fun dev => decide (dev.hostname = row.hostname)) = []
    · have hany : acc.any (fun dev => decide (dev.hostname = row.hostname)) = false :=
        (filter_nil_iff_any_false acc row.hostname).mp hd
      rw [if_pos hd, if_neg (by rw [hany]; exact Bool.false_ne_true), ih]
      simp
    · have hany : acc.any (fun dev => decide (dev.hostname = row.hostname)) = true := by
        cases h2 : acc.any (fun dev => decide (dev.hostname = row.hostname)) with
        | false => exact absurd ((filter_nil_iff_any_false acc row.hostname).mpr h2) hd
        | true => rfl
      rw [if_neg hd, if_pos hany, ih]

lemma devLoop_filter (hn : Str) :
    ∀ (rows acc : List DeviceRecord) (ns : List Notice),
      (devLoop acc ns rows).1.filter (fun r => decide (r.hostname = hn))
        = acc.filter (fun r => decide (r.hostname = hn))
          ++ (if acc.filter (fun r => decide (r.hostname = hn)) = []
              then ((rows.filter (fun r => decide (r.hostname = hn))).take 1) else []) := by
  intro rows
  induction rows with
  | nil =>
    intro acc ns
    simp [devLoop]
  | cons row rest ih =>
    intro acc ns
    rw [devLoop]
    by_cases hd : acc.filter (fun dev => decide (dev.hostname = row.hostname)) = []
    · rw [if_pos hd, ih]
      by_cases hrh : row.hostname = hn
      · have hdp : acc.filter (fun r => decide (r.hostname = hn)) = [] := by
          rw [← hrh]
          exact hd
        simp [List.filter_append, List.filter_cons, hdp, hrh]
      · simp [List.filter_append, List.filter_cons, hrh]
    · rw [if_neg hd, ih]
      by_cases hrh : row.hostname = hn
      · rw [hrh] at hd
        rw [if_neg hd, if_neg hd]
      · simp [List.filter_cons, hrh]

lemma devLoop_dup_count (hn : Str) :
    ∀ (rows acc : List DeviceRecord) (ns : List Notice),
      (acc.filter (fun r => decide (r.hostname = hn))).length ≤ 1 →
      ((devLoop acc ns rows).2.filter (fun x => decide (x = Notice.dup hn))).length
        = (ns.filter (fun x => decide (x = Notice.dup hn))).length
          + (if acc.filter (fun r => decide (r.hostname = hn)) = []
             then (rows.filter (fun r => decide (r.hostname = hn))).length - 1
             else (rows.filter (fun r => decide (r.hostname = hn))).length) := by
  intro rows
  induction rows with
  | nil =>
    intro acc ns hinv
    rw [devLoop]
    by_cases hacc : acc.filter (fun r => decide (r.hostname = hn)) = []
    · rw [if_pos hacc]
      simp
    · rw [if_neg hacc]
      simp
  | cons row rest ih =>
    intro acc ns hinv
    rw [devLoop]
    by_cases hd : acc.filter (fun dev => decide (dev.hostname = row.hostname)) = []
    · rw [if_pos hd, hd]
      by_cases hrh : row.hostname = hn
      · have hdp : acc.filter (fun r => decide (r.hostname = hn)) = [] := by
          rw [← hrh]
          exact hd
        have hnewinv : ((acc ++ [row]).filter (fun r => decide (r.hostname = hn))).length ≤ 1 := by
          rw [List.filter_append, hdp]
          simp [List.filter_cons, hrh]
        rw [ih _ _ hnewinv]
        have hne : (acc ++ [row]).filter (fun r => decide (r.hostname = hn)) ≠ [] := by
          rw [List.filter_append, hdp]
          simp [hrh]
        rw [if_neg hne, if_pos hdp]
        simp [List.filter_append, List.filter_cons, hrh]
      · have haccapp : (acc ++ [row]).filter (fun r => decide (r.hostname = hn))
            = acc.filter (fun r => decide (r.hostname = hn)) := by
          rw [List.filter_append]
          simp [hrh]
        have hnewinv : ((acc ++ [row]).filter (fun r => decide (r.hostname = hn))).length ≤ 1 := by
          rw [haccapp]
          exact hinv
        rw [ih _ _ hnewinv, haccapp]
        simp [List.filter_append, List.filter_cons, hrh]
    · rw [if_neg hd]
      rw [ih _ _ hinv]
      by_cases hrh : row.hostname = hn
      · have hdp : acc.filter (fun r => decide (r.hostname = hn)) ≠ [] := by
          rw [← hrh]
          exact hd
        have hlen : (acc.filter (fun r => decide (r.hostname = hn))).length = 1 := by
          have hpos : 0 < (acc.filter (fun r => decide (r.hostname = hn))).length :=
            List.length_pos.mpr hdp
          omega
        have hmap : List.filter (fun x => decide (x = Notice.dup hn))
              (List.map (fun _ => Notice.dup row.hostname)
                (acc.filter (fun dev => decide (dev.hostname = row.hostname))))
            = List.map (fun _ => Notice.dup row.hostname)
                (acc.filter (fun dev => decide (dev.hostname = row.hostname))) := by
          rw [hrh]
          exact filter_map_const_dup hn _
        rw [if_neg hdp, if_neg hdp]
        rw [List.filter_append, hmap, List.length_append, List.length_map]
        have hlen2 : (acc.filter (fun dev => decide (dev.hostname = row.hostname))).length = 1 := by
          rw [hrh]
          exact hlen
        rw [hlen2]
        rw [List.filter_cons]
        simp [hrh]
        omega
      · have hmap : List.filter (fun x => decide (x = Notice.dup hn))
              (List.map (fun _ => Notice.dup row.hostname)
                (acc.filter (fun dev => decide (dev.hostname = row.hostname))))
            = [] := filter_map_const_dup_ne hrh _
        rw [List.filter_append, hmap, List.length_append]
        rw [List.filter_cons]
        simp [hrh]

/-- Claim C4: for an input list with `k ≥ 1` records of one hostname, the
registry keeps exactly one record for it — the first occurrence — emits
`k - 1` duplicate notices for it, and the overall result is the first-seen
dedup of the input. -/
theorem c4_registry_dedup (rows : List DeviceRecord) (hn : Str)
    (hk : 0 < (rows.filter (fun r => decide (r.hostname = hn))).length) :
    ((get_devices_from_file rows).1.filter (fun r => decide (r.hostname = hn))
        = (rows.filter (fun r => decide (r.hostname = hn))).take 1)
    ∧ (((get_devices_from_file rows).2.filter (fun x => decide (x = Notice.dup hn))).length
        = (rows.filter (fun r => decide (r.hostname = hn))).length - 1)
    ∧ (get_devices_from_file rows).1 = specRegistry [] rows := by
  unfold get_devices_from_file
  refine ⟨?_, ?_, ?_⟩
  · have h := devLoop_filter hn rows [] []
    simpa using h
  · have h := devLoop_dup_count hn rows [] [] (by simp)
    simpa using h
  · have h := devLoop_spec rows [] []
    simpa using h

/-- three CSV rows: two sharing hostname `R1` (the second with a different
address), one with hostname `R2`. -/
def rowsC4 : List DeviceRecord :=
  [{ hostname := ("R1").data, ip := ("10.0.0.1").data, username := ("u").data,
     password := ("p").data, secret := ("s").data, device_type := ("cisco_ios").data,
     ntp := ("10.0.0.9").data },
   { hostname := ("R1").data, ip := ("10.0.0.7").data, username := ("u2").data,
     password := ("p2").data, secret := ("s2").data, device_type := ("cisco_ios").data,
     ntp := ("10.0.0.9").data },
   { hostname := ("R2").data, ip := ("10.0.0.3").data, username := ("u").data,
     password := ("p").data, secret := ("s").data, device_type := ("cisco_ios").data,
     ntp := ("10.0.0.9").data }]

theorem c4_registry_dedup_witness :
    (0 < (rowsC4.filter (fun r => decide (r.hostname = ("R1").data))).length)
    ∧ ((get_devices_from_file rowsC4).1.filter (fun r => decide (r.hostname = ("R1").data))
        = (rowsC4.filter (fun r => decide (r.hostname = ("R1").data))).take 1)
    ∧ (((get_devices_from_file rowsC4).2.filter
          (fun x => decide (x = Notice.dup (("R1").data)))).length
        = (rowsC4.filter (fun r => decide (r.hostname = ("R1").data))).length - 1) :=
  ⟨by decide,
   (c4_registry_dedup rowsC4 (("R1").data) (by decide)).1,
   (c4_registry_dedup rowsC4 (("R1").data) (by decide)).2.1⟩
